import Mathlib

/-!
Verification of the VC executor runtime (package `executor`, embedded in
`docs/CONFIGURATION.md`) and its storage extension layer (`VCStorage`).

The Go source is shallowly embedded: every store call, oracle call and
monitor call made by a function is recorded as an explicit action in a
trace, and the environment (results of store calls, oracle outcomes,
cancellation status of the ambient `context.Context` at each check point)
is passed in as data.  Durations are modelled in nanoseconds as `Nat`,
Go `int` fields that may be negative as `Int`.  In-memory bookkeeping
that makes no store write (the intervention-controller map, the
`agentCancel` token plumbing) is not traced.
-/

namespace VC

/-- Issue status, `types.Status` in the source. -/
inductive Status
  | open_
  | inProgress
  | blocked
  | closed
  deriving DecidableEq, Repr

/-- Execution states persisted in `vc_issue_execution_state`
(`types.ExecutionState`). -/
inductive ExecutionState
  | pending
  | claimed
  | assessing
  | executing
  | analyzing
  | gates
  | committing
  | completed
  | failed
  deriving DecidableEq, Repr

/-! ## Execution history and releaseIssueWithError (claim C2) -/

/-- One row of `vc_execution_history` as far as `releaseIssueWithError`
reads it: the tri-state `success` column (`*bool` in Go). -/
structure ExecutionAttempt where
  success : Option Bool
  deriving DecidableEq, Repr

/-- The loop body of `releaseIssueWithError` that counts consecutive
failures: it walks the history from the newest attempt backwards,
skips attempts whose `Success` pointer is nil, adds one for each
recorded failure, and stops at the first recorded success.  The
argument is the already-reversed history (newest first). -/
def countConsecutiveFailures : List ExecutionAttempt → Nat
  | [] => 0
  | a :: rest =>
    match a.success with
    | none => countConsecutiveFailures rest
    | some false => countConsecutiveFailures rest + 1
    | some true => 0

/-- `consecutiveFailures` as computed by `releaseIssueWithError` on the
execution history returned by `GetExecutionHistory` (oldest first). -/
def consecutiveFailures (history : List ExecutionAttempt) : Nat :=
  countConsecutiveFailures history.reverse

/-- The constant `maxConsecutiveFailures` in `releaseIssueWithError`. -/
def maxConsecutiveFailures : Nat := 3

/-- Store writes that `releaseIssueWithError` can issue. -/
inductive ReleaseOp
  | releaseIssue
  | updateIssueStatus (s : Status)
  | addComment (actor : String) (comment : String)
  | releaseIssueAndReopen (actor : String) (errorComment : String)
  deriving DecidableEq, Repr

/-- Shallow embedding of `releaseIssueWithError`.  `histErr` is true when
`GetExecutionHistory` returned an error, in which case the history is
nil and the function falls through to reopening.  Returns the list of
store writes issued, in order. -/
def releaseIssueWithError (histErr : Bool) (history : List ExecutionAttempt)
    (instanceID errMsg : String) : List ReleaseOp :=
  let history := if histErr then [] else history
  let n := consecutiveFailures history
  if n ≥ maxConsecutiveFailures then
    [ReleaseOp.releaseIssue,
     ReleaseOp.updateIssueStatus Status.blocked,
     ReleaseOp.addComment "executor"
       (s!"Blocked after {n} consecutive execution failures. Last error: " ++ errMsg)]
  else
    [ReleaseOp.releaseIssueAndReopen instanceID errMsg]

/-- Characterisation of the counting loop used to state C2 in the words
of the spec: trailing failed attempts, with unknown-success attempts
skipped and counting stopped at the first recorded success. -/
def trailingFailures (history : List ExecutionAttempt) : Nat :=
  (((history.reverse.filter fun a => a.success.isSome).takeWhile
      fun a => a.success == some false)).length

theorem countConsecutiveFailures_eq_spec (l : List ExecutionAttempt) :
    countConsecutiveFailures l =
      ((l.filter fun a => a.success.isSome).takeWhile
        fun a => a.success == some false).length := by
  induction l with
  | nil => rfl
  | cons a rest ih =>
    cases h : a.success with
    | none => simp [countConsecutiveFailures, h, List.filter, ih]
    | some b =>
      cases b with
      | true => simp [countConsecutiveFailures, h, List.filter, List.takeWhile]
      | false => simp [countConsecutiveFailures, h, List.filter, List.takeWhile, ih]

theorem consecutiveFailures_eq_trailingFailures (history : List ExecutionAttempt) :
    consecutiveFailures history = trailingFailures history := by
  unfold consecutiveFailures trailingFailures
  exact countConsecutiveFailures_eq_spec history.reverse

/-! ## processNextIssue (claim C4) -/

/-- Environment for one `processNextIssue` call: the result of
`GetReadyWork` and, when a ready issue exists, whether `ClaimIssue`
returned an error (a lost claim race surfaces as an error from the
store). -/
structure PollEnv where
  readyErr : Bool
  readyIssues : List String
  claimErr : Bool
  deriving DecidableEq, Repr

/-- Result of `processNextIssue`: whether it returned an error to the
event loop, and whether it went on to execute a claimed issue. -/
structure PollResult where
  isErr : Bool
  executed : Bool
  deriving DecidableEq, Repr

/-- Shallow embedding of `processNextIssue`: get ready work (limit 1);
no work is a nil return; a `ClaimIssue` error is swallowed (expected
with multiple executors) and also returns nil; otherwise the issue is
executed. -/
def processNextIssue (env : PollEnv) : PollResult :=
  if env.readyErr then { isErr := true, executed := false }
  else
    match env.readyIssues with
    | [] => { isErr := false, executed := false }
    | _ :: _ =>
      if env.claimErr then { isErr := false, executed := false }
      else { isErr := false, executed := true }

/-- The event loop tick surfaces an error (logs it to stderr) exactly
when `processNextIssue` returned one; it continues to the next tick in
every case. -/
def eventLoopTickSurfacesError (env : PollEnv) : Bool :=
  (processNextIssue env).isErr

/-! ## StoreAgentEvent and the cleanup summary event (claim C8) -/

/-- The fields of `events.AgentEvent` that `StoreAgentEvent` binds. -/
structure AgentEvent where
  issueID : String
  executorID : String
  agentID : String
  typ : String
  severity : String
  message : String
  sourceLine : Nat
  deriving DecidableEq, Repr

/-- The row inserted into `vc_agent_events`; `none` is SQL NULL. -/
structure AgentEventRow where
  issue_id : Option String
  executor_id : Option String
  agent_id : Option String
  typ : String
  severity : String
  message : String
  source_line : Nat
  deriving DecidableEq, Repr

/-- Shallow embedding of the bind logic of `StoreAgentEvent`: an empty
`IssueID`, `ExecutorID` or `AgentID` is converted to NULL before the
INSERT (comment vc-100 in the source: avoid FK violations for system
events). -/
def storeAgentEventRow (e : AgentEvent) : AgentEventRow :=
  { issue_id := if e.issueID = "" then none else some e.issueID,
    executor_id := if e.executorID = "" then none else some e.executorID,
    agent_id := if e.agentID = "" then none else some e.agentID,
    typ := e.typ,
    severity := e.severity,
    message := e.message,
    source_line := e.sourceLine }

/-- The schema constraint `FOREIGN KEY (issue_id) REFERENCES issues(id)`
on `vc_agent_events`: a NULL issue_id always satisfies it, a non-NULL
issue_id must match an existing issues row. -/
def issueFKSatisfied (issues : List String) (r : AgentEventRow) : Bool :=
  match r.issue_id with
  | none => true
  | some i => issues.contains i

/-- The event constructed by `logCleanupEvent` (the event-cleanup
summary event, vc-196).  Its `IssueID` is the sentinel string SYSTEM;
the source comment reads: requires SYSTEM pseudo-issue to exist. -/
def cleanupSummaryEvent (instanceID : String) (totalDeleted : Nat)
    (processingTimeMs : Nat) (success : Bool) (errorMsg : String) : AgentEvent :=
  { issueID := "SYSTEM",
    executorID := instanceID,
    agentID := "",
    typ := "event_cleanup_completed",
    severity := if success then "info" else "error",
    message :=
      if success then
        s!"Event cleanup completed: deleted {totalDeleted} events in {processingTimeMs}ms"
      else
        "Event cleanup failed: " ++ errorMsg,
    sourceLine := 0 }

/-! ## Config defaulting in New and the keep-count (claim C9) -/

/-- Nanoseconds per second, for Go `time.Duration` arithmetic. -/
def nsPerSec : Nat := 1000000000

/-- The `Config` fields that the defaulting block of `New` inspects.
Durations are nanoseconds; zero means unset.  `instanceCleanupKeep` is
a Go `int`, hence `Int`. -/
structure NewConfig where
  workingDir : String
  sandboxRoot : String
  parentRepo : String
  cleanupInterval : Nat
  staleThreshold : Nat
  instanceCleanupAge : Nat
  instanceCleanupKeep : Int
  deriving DecidableEq, Repr

/-- The corresponding resolved `Executor` fields. -/
structure ResolvedConfig where
  workingDir : String
  sandboxRoot : String
  parentRepo : String
  cleanupInterval : Nat
  staleThreshold : Nat
  instanceCleanupAge : Nat
  instanceCleanupKeep : Int
  deriving DecidableEq, Repr

/-- Shallow embedding of the defaulting block of `New`: each unset field
is replaced by its documented default; in particular
`instanceCleanupKeep == 0` becomes 10. -/
def resolveConfig (cfg : NewConfig) : ResolvedConfig :=
  { workingDir := if cfg.workingDir = "" then "." else cfg.workingDir,
    sandboxRoot := if cfg.sandboxRoot = "" then ".sandboxes" else cfg.sandboxRoot,
    parentRepo := if cfg.parentRepo = "" then "." else cfg.parentRepo,
    cleanupInterval :=
      if cfg.cleanupInterval = 0 then 5 * 60 * nsPerSec else cfg.cleanupInterval,
    staleThreshold :=
      if cfg.staleThreshold = 0 then 5 * 60 * nsPerSec else cfg.staleThreshold,
    instanceCleanupAge :=
      if cfg.instanceCleanupAge = 0 then 24 * 3600 * nsPerSec else cfg.instanceCleanupAge,
    instanceCleanupKeep :=
      if cfg.instanceCleanupKeep = 0 then 10 else cfg.instanceCleanupKeep }

/-- Store writes issued by `Stop` after all loops have signalled done.
`deleteOldStoppedInstances` carries the arguments the source passes:
`int(e.instanceCleanupAge.Seconds())` and `e.instanceCleanupKeep`. -/
inductive StopStoreOp
  | markInstanceStopped
  | deleteOldStoppedInstances (olderThanSeconds : Nat) (keep : Int)
  deriving DecidableEq, Repr

/-- The tail of `Stop` once the wait loop has completed: mark the
instance stopped, then delete old stopped instances with the resolved
keep count. -/
def stopFinishOps (r : ResolvedConfig) : List StopStoreOp :=
  [StopStoreOp.markInstanceStopped,
   StopStoreOp.deleteOldStoppedInstances (r.instanceCleanupAge / nsPerSec)
     r.instanceCleanupKeep]

/-! ## Start (claims C7 and C10) -/

/-- The executor configuration that `Start` consults. -/
structure StartConfig where
  staleThresholdSecs : Nat
  enableSandboxes : Bool
  keepBranches : Bool
  watchdogEnabled : Bool
  hasAnalyzer : Bool
  hasIntervention : Bool
  deriving DecidableEq, Repr

/-- Environment for one `Start` call: results of the store calls it can
make. -/
structure StartEnv where
  registerErr : Bool
  cleanupStaleErr : Bool
  cleanedCount : Nat
  branchCleanupErr : Bool
  deriving DecidableEq, Repr

/-- Actions issued by `Start`, in order: store writes and goroutine
launches. -/
inductive StartOp
  | registerInstance
  | cleanupStaleInstances (staleThresholdSecs : Nat)
  | cleanupOrphanedBranches
  | startEventLoop
  | startWatchdogLoop
  | startCleanupLoop
  | startEventCleanupLoop
  deriving DecidableEq, Repr

/-- Loop-launch classification of a `StartOp`. -/
def StartOp.isLoopStart : StartOp → Bool
  | .startEventLoop => true
  | .startWatchdogLoop => true
  | .startCleanupLoop => true
  | .startEventCleanupLoop => true
  | _ => false

/-- Errors `Start` can return. -/
inductive StartErr
  | alreadyRunning
  | registerFailed
  deriving DecidableEq, Repr

/-- Result of `Start`: actions issued, the `running` flag afterwards,
and the returned error if any. -/
structure StartResult where
  trace : List StartOp
  running : Bool
  err : Option StartErr
  deriving DecidableEq, Repr

/-- Shallow embedding of `Start`.  `running` is the guarded flag on
entry.  If already running, return an error with no store write.  Set
running, register the instance; on a registration error reset the flag
and return the error.  Then synchronously run `CleanupStaleInstances`
(a failure only logs a warning), optionally clean orphaned branches,
and launch the four loops (the watchdog loop only when enabled and its
components were initialised). -/
def start (cfg : StartConfig) (running : Bool) (env : StartEnv) : StartResult :=
  if running then
    { trace := [], running := true, err := some StartErr.alreadyRunning }
  else if env.registerErr then
    { trace := [StartOp.registerInstance], running := false,
      err := some StartErr.registerFailed }
  else
    { trace :=
        [StartOp.registerInstance,
         StartOp.cleanupStaleInstances cfg.staleThresholdSecs] ++
        (if cfg.enableSandboxes && !cfg.keepBranches then
          [StartOp.cleanupOrphanedBranches] else []) ++
        [StartOp.startEventLoop] ++
        (if cfg.watchdogEnabled && cfg.hasAnalyzer && cfg.hasIntervention then
          [StartOp.startWatchdogLoop] else []) ++
        [StartOp.startCleanupLoop, StartOp.startEventCleanupLoop],
      running := true,
      err := none }

/-! ## The wait loop of Stop (claim C3) -/

/-- The four done flags of the wait loop in `Stop`. -/
structure WaitFlags where
  eventDone : Bool
  watchdogDone : Bool
  cleanupDone : Bool
  eventCleanupDone : Bool
  deriving DecidableEq, Repr

/-- The loop condition of the wait loop, negated: all four loops have
signalled done. -/
def WaitFlags.all (s : WaitFlags) : Bool :=
  s.eventDone && s.watchdogDone && s.cleanupDone && s.eventCleanupDone

/-- The initial flags in `Stop`: the watchdog is skipped when it is not
enabled or the analyzer was never initialised. -/
def initWaitFlags (watchdogEnabled hasAnalyzer : Bool) : WaitFlags :=
  { eventDone := false,
    watchdogDone := !watchdogEnabled || !hasAnalyzer,
    cleanupDone := false,
    eventCleanupDone := false }

/-- A signal the select statement in the wait loop can receive: one of
the four done channels closing, or the caller context firing. -/
inductive StopSignal
  | eventDone
  | watchdogDone
  | cleanupDone
  | eventCleanupDone
  | ctxDone
  deriving DecidableEq, Repr

/-- Effect of receiving one signal on the done flags (`ctxDone` makes
the loop return instead, so it leaves the flags unchanged here). -/
def applySignal (s : WaitFlags) : StopSignal → WaitFlags
  | .eventDone => { s with eventDone := true }
  | .watchdogDone => { s with watchdogDone := true }
  | .cleanupDone => { s with cleanupDone := true }
  | .eventCleanupDone => { s with eventCleanupDone := true }
  | .ctxDone => s

/-- Outcome of the wait loop: all done-signals observed, the caller
deadline fired first, or the signal sequence ended with the loop still
blocked (still waiting). -/
inductive StopOutcome
  | completed
  | ctxErr
  | waiting
  deriving DecidableEq, Repr

/-- Shallow embedding of the wait loop of `Stop`: re-check the loop
condition, then select on whichever signal arrives next.  The arriving
order of signals is the input list, which models the scheduler; a
`ctxDone` processed before all four flags are set makes `Stop` return
`ctx.Err()` immediately, without waiting for the remaining loops. -/
def stopWait (s : WaitFlags) : List StopSignal → StopOutcome
  | [] => if s.all then StopOutcome.completed else StopOutcome.waiting
  | sig :: rest =>
    if s.all then StopOutcome.completed
    else if sig = StopSignal.ctxDone then StopOutcome.ctxErr
    else stopWait (applySignal s sig) rest

/-! ## runEventCleanup (claim C6) -/

/-- The fields of `config.EventRetentionConfig` that `runEventCleanup`
reads. -/
structure EventRetentionConfig where
  retentionDays : Nat
  retentionCriticalDays : Nat
  perIssueLimitEvents : Nat
  globalLimitEvents : Nat
  cleanupBatchSize : Nat
  cleanupVacuum : Bool
  deriving DecidableEq, Repr

/-- The global-limit trigger threshold
`int(float64(cfg.GlobalLimitEvents) * 0.95)`.  The Go expression uses
float64; because the relative representation error of the constant
0.95 is below half an ulp, the product rounds to the mathematically
nearest value and truncation agrees with `95 * g / 100` for every `g`
with `95 * g / 100 < 2 ^ 53`, which covers the full configuration
range. -/
def triggerThreshold (g : Nat) : Nat := 95 * g / 100

/-- Environment for one `runEventCleanup` cycle: results of the store
calls, wall-clock readings supplied from outside. -/
structure CleanupEnv where
  ageErr : Bool
  ageDeleted : Nat
  perIssueErr : Bool
  perIssueDeleted : Nat
  globalErr : Bool
  globalDeleted : Nat
  vacuumErr : Bool
  countsErr : Bool
  totalEvents : Nat
  elapsedMs : Nat
  deriving DecidableEq, Repr

/-- Calls issued by `runEventCleanup`, in order.  `logCleanup` records a
call to `logCleanupEvent` with the arguments the source passes:
total, time-based, per-issue and global deletion counts, processing
time, whether VACUUM ran, remaining events, success flag and error
message. -/
inductive CleanupOp
  | cleanupEventsByAge (retentionDays criticalDays batch : Nat)
  | cleanupEventsByIssueLimit (perIssueLimit batch : Nat)
  | cleanupEventsByGlobalLimit (threshold batch : Nat)
  | vacuumDatabase
  | getEventCounts
  | logCleanup (total timeBased perIssue global : Nat) (processingTimeMs : Nat)
      (vacuumRan : Bool) (remaining : Nat) (success : Bool) (errorMsg : String)
  deriving DecidableEq, Repr

/-- Classification used to state that every cycle emits a summary
event. -/
def CleanupOp.isLogCleanup : CleanupOp → Bool
  | .logCleanup _ _ _ _ _ _ _ _ _ => true
  | _ => false

/-- Shallow embedding of `runEventCleanup`.  Step 1 age-based cleanup,
step 2 per-issue limit, step 3 global limit at the 95 percent trigger
threshold, step 4 optional VACUUM when enabled and anything was
deleted, then read remaining counts and log the summary event.  Each
failing step logs an error summary with the partial counts and
returns the error (second component true). -/
def runEventCleanup (cfg : EventRetentionConfig) (env : CleanupEnv) :
    List CleanupOp × Bool :=
  let ageOp := CleanupOp.cleanupEventsByAge cfg.retentionDays
    cfg.retentionCriticalDays cfg.cleanupBatchSize
  if env.ageErr then
    ([ageOp,
      CleanupOp.logCleanup 0 0 0 0 env.elapsedMs false 0 false
        "time-based cleanup failed"], true)
  else
    let tb := env.ageDeleted
    let issueOp := CleanupOp.cleanupEventsByIssueLimit cfg.perIssueLimitEvents
      cfg.cleanupBatchSize
    if env.perIssueErr then
      ([ageOp, issueOp,
        CleanupOp.logCleanup tb tb 0 0 env.elapsedMs false 0 false
          "per-issue limit cleanup failed"], true)
    else
      let pi := env.perIssueDeleted
      let globalOp := CleanupOp.cleanupEventsByGlobalLimit
        (triggerThreshold cfg.globalLimitEvents) cfg.cleanupBatchSize
      if env.globalErr then
        ([ageOp, issueOp, globalOp,
          CleanupOp.logCleanup (tb + pi) tb pi 0 env.elapsedMs false 0 false
            "global limit cleanup failed"], true)
      else
        let gl := env.globalDeleted
        let total := tb + pi + gl
        let vacuumOps : List CleanupOp :=
          if cfg.cleanupVacuum && total > 0 then [CleanupOp.vacuumDatabase] else []
        let vacuumRan := cfg.cleanupVacuum && total > 0 && !env.vacuumErr
        let remaining := if env.countsErr then 0 else env.totalEvents
        ([ageOp, issueOp, globalOp] ++ vacuumOps ++
          [CleanupOp.getEventCounts,
           CleanupOp.logCleanup total tb pi gl env.elapsedMs vacuumRan remaining
             true ""], false)

/-! ## executeIssue (claims C1 and C5)

The function is embedded as a trace of the calls it makes.  Release
calls record which context was passed to `releaseIssueWithError`
(`ambient` is the `ctx` argument of `executeIssue`, `detached` is the
fresh `context.Background()` the source creates for cleanup) together
with the cancellation status of the ambient context at the moment of
the call, supplied by the environment. -/

/-- Which context a cleanup call received. -/
inductive Ctx
  | ambient
  | detached
  deriving DecidableEq, Repr

/-- The call sites of `releaseIssueWithError` inside `executeIssue`, in
source order. -/
inductive ReleaseSite
  | assessingUpdate
  | assessment
  | preSpawn
  | executingUpdate
  | gatherContext
  | promptBuilderNew
  | buildPrompt
  | spawnAgent
  | agentWait
  | resultsProcessorNew
  | processResults
  deriving DecidableEq, Repr

/-- The sites at which the source explicitly checks `ctx.Err()` and
switches cleanup to `context.Background()`. -/
def ReleaseSite.isGuarded : ReleaseSite → Bool
  | .assessingUpdate => true
  | .assessment => true
  | .preSpawn => true
  | .executingUpdate => true
  | _ => false

/-- Calls made by `executeIssue`, in order. -/
inductive Action
  | startExecution
  | recordEvent (typ : String)
  | logEvent (typ : String) (severity : String)
  | updateState (s : ExecutionState)
  | recordTransition (a b : ExecutionState)
  | addComment (actor : String)
  | createSandbox
  | cleanupSandbox
  | release (site : ReleaseSite) (c : Ctx) (ambientCancelled : Bool)
  | endExecution (success gatesPassed : Bool)
  deriving DecidableEq, Repr

/-- How `executeIssue` returned. -/
inductive ExecOutcome
  | ok
  | ctxCanceled
  | failed (site : ReleaseSite)
  deriving DecidableEq, Repr

/-- Environment for one `executeIssue` run: configuration flags, the
result of every fallible call, and the ambient cancellation status at
each point where it is consulted or passed onward. -/
structure ExecEnv where
  aiEnabled : Bool
  hasSupervisor : Bool
  sandboxesEnabled : Bool
  hasSandboxMgr : Bool
  updateAssessingFails : Bool
  cancelledAtAssessingCheck : Bool
  assessFails : Bool
  cancelledAtAssessCheck : Bool
  sandboxCreateFails : Bool
  cancelledPreSpawn : Bool
  updateExecutingFails : Bool
  cancelledAtExecutingCheck : Bool
  gatherFails : Bool
  cancelledAtGather : Bool
  builderFails : Bool
  cancelledAtBuilder : Bool
  promptFails : Bool
  cancelledAtPrompt : Bool
  spawnFails : Bool
  cancelledAtSpawn : Bool
  waitFails : Bool
  cancelledAtWait : Bool
  dedupCreateFails : Bool
  procCreateFails : Bool
  cancelledAtProcCreate : Bool
  processFails : Bool
  cancelledAtProcess : Bool
  agentSuccess : Bool
  procCompleted : Bool
  gatesPassed : Bool
  deriving DecidableEq, Repr

/-- The deferred sandbox cleanup registered in phase 2 when a sandbox
was created; it runs at every later return point. -/
def deferOps (sandboxCreated : Bool) : List Action :=
  if sandboxCreated then [Action.cleanupSandbox] else []

/-- Phase 3 results processing of `executeIssue`: dedup construction,
`NewResultsProcessor`, `ProcessAgentResult`, the completion event and
the final `EndExecution`.  Failures release with the ambient context. -/
def execResultsPhase (env : ExecEnv) (d : List Action) : List Action × ExecOutcome :=
  let t0 : List Action :=
    [Action.logEvent "results_processing_started" "info"] ++
    (if env.hasSupervisor && env.dedupCreateFails then
      [Action.logEvent "error" "warning"] else [])
  if env.procCreateFails then
    (t0 ++ [Action.logEvent "results_processing_completed" "error",
            Action.release ReleaseSite.resultsProcessorNew Ctx.ambient
              env.cancelledAtProcCreate,
            Action.endExecution false false] ++ d,
     ExecOutcome.failed ReleaseSite.resultsProcessorNew)
  else if env.processFails then
    (t0 ++ [Action.logEvent "results_processing_completed" "error",
            Action.release ReleaseSite.processResults Ctx.ambient
              env.cancelledAtProcess,
            Action.endExecution false false] ++ d,
     ExecOutcome.failed ReleaseSite.processResults)
  else
    (t0 ++ [Action.logEvent "results_processing_completed" "info",
            Action.endExecution (env.procCompleted && env.agentSuccess)
              env.gatesPassed] ++ d,
     ExecOutcome.ok)

/-- The agent phase of `executeIssue`: context gathering, prompt
building, spawn and wait.  Every failure here passes the ambient
context to `releaseIssueWithError`, whatever its cancellation
status. -/
def execAgentPhase (env : ExecEnv) (d : List Action) : List Action × ExecOutcome :=
  if env.gatherFails then
    ([Action.logEvent "agent_spawned" "error",
      Action.release ReleaseSite.gatherContext Ctx.ambient env.cancelledAtGather,
      Action.endExecution false false] ++ d,
     ExecOutcome.failed ReleaseSite.gatherContext)
  else if env.builderFails then
    ([Action.logEvent "agent_spawned" "error",
      Action.release ReleaseSite.promptBuilderNew Ctx.ambient env.cancelledAtBuilder,
      Action.endExecution false false] ++ d,
     ExecOutcome.failed ReleaseSite.promptBuilderNew)
  else if env.promptFails then
    ([Action.logEvent "agent_spawned" "error",
      Action.release ReleaseSite.buildPrompt Ctx.ambient env.cancelledAtPrompt,
      Action.endExecution false false] ++ d,
     ExecOutcome.failed ReleaseSite.buildPrompt)
  else if env.spawnFails then
    ([Action.logEvent "agent_spawned" "error",
      Action.release ReleaseSite.spawnAgent Ctx.ambient env.cancelledAtSpawn,
      Action.endExecution false false] ++ d,
     ExecOutcome.failed ReleaseSite.spawnAgent)
  else if env.waitFails then
    ([Action.logEvent "agent_spawned" "info",
      Action.logEvent "agent_completed" "error",
      Action.release ReleaseSite.agentWait Ctx.ambient env.cancelledAtWait,
      Action.endExecution false false] ++ d,
     ExecOutcome.failed ReleaseSite.agentWait)
  else
    let r := execResultsPhase env d
    ([Action.logEvent "agent_spawned" "info",
      Action.logEvent "agent_completed" "info"] ++ r.1, r.2)

/-- From the pre-spawn cancellation check (vc-101) through the end of
`executeIssue`.  The two guarded sites here use the detached context
when the ambient context is already cancelled. -/
def execFromPreSpawn (env : ExecEnv) (sandboxCreated : Bool) :
    List Action × ExecOutcome :=
  let d := deferOps sandboxCreated
  if env.cancelledPreSpawn then
    ([Action.release ReleaseSite.preSpawn Ctx.detached true,
      Action.endExecution false false] ++ d,
     ExecOutcome.ctxCanceled)
  else if env.updateExecutingFails && env.cancelledAtExecutingCheck then
    ([Action.updateState ExecutionState.executing,
      Action.release ReleaseSite.executingUpdate Ctx.detached true,
      Action.endExecution false false] ++ d,
     ExecOutcome.ctxCanceled)
  else
    let r := execAgentPhase env d
    ([Action.updateState ExecutionState.executing,
      Action.recordTransition ExecutionState.assessing ExecutionState.executing] ++
      r.1, r.2)

/-- The sandbox phase: attempt creation when enabled; a creation error
only logs a warning and the run continues in the main workspace. -/
def execSandboxPhase (env : ExecEnv) : List Action × Bool :=
  if env.sandboxesEnabled && env.hasSandboxMgr then
    ([Action.createSandbox], !env.sandboxCreateFails)
  else ([], false)

/-- The assessment phase: entered only when AI supervision is enabled
and a supervisor exists.  A cancelled assessment releases with the
detached context and aborts; any other assessment error logs and
continues. -/
def execAssessPhase (env : ExecEnv) : List Action × Option ExecOutcome :=
  if env.aiEnabled && env.hasSupervisor then
    let t0 : List Action := [Action.logEvent "assessment_started" "info"]
    if env.assessFails then
      if env.cancelledAtAssessCheck then
        (t0 ++ [Action.release ReleaseSite.assessment Ctx.detached true,
                Action.endExecution false false],
         some ExecOutcome.ctxCanceled)
      else
        (t0 ++ [Action.logEvent "assessment_completed" "error"], none)
    else
      (t0 ++ [Action.addComment "ai-supervisor",
              Action.logEvent "assessment_completed" "info"], none)
  else ([], none)

/-- Shallow embedding of `executeIssue`: telemetry start, claim event,
the unconditional transition to `assessing` (vc-110), the assessment,
sandbox, spawn and results phases, with the release behaviour of each
failure path. -/
def executeIssue (env : ExecEnv) : List Action × ExecOutcome :=
  let pre : List Action :=
    [Action.startExecution,
     Action.logEvent "issue_claimed" "info",
     Action.recordEvent "issue_claimed",
     Action.updateState ExecutionState.assessing]
  if env.updateAssessingFails && env.cancelledAtAssessingCheck then
    (pre ++ [Action.release ReleaseSite.assessingUpdate Ctx.detached true,
             Action.endExecution false false],
     ExecOutcome.ctxCanceled)
  else
    let t1 := pre ++
      [Action.recordTransition ExecutionState.claimed ExecutionState.assessing]
    match execAssessPhase env with
    | (ta, some r) => (t1 ++ ta, r)
    | (ta, none) =>
      let s := execSandboxPhase env
      let f := execFromPreSpawn env s.2
      (t1 ++ ta ++ s.1 ++ f.1, f.2)

/-- The sequence of `UpdateExecutionState` calls in a trace. -/
def stateUpdates (tr : List Action) : List ExecutionState :=
  tr.filterMap fun a =>
    match a with
    | Action.updateState s => some s
    | _ => none

/-- A run in which the executor is shut down while the agent is
running: the pre-spawn check passes, `agent.Wait` then fails because
the agent context (a child of the ambient context) was cancelled, and
the ambient context is cancelled at the release point. -/
def envWaitCancelled : ExecEnv :=
  { aiEnabled := false, hasSupervisor := false,
    sandboxesEnabled := false, hasSandboxMgr := false,
    updateAssessingFails := false, cancelledAtAssessingCheck := false,
    assessFails := false, cancelledAtAssessCheck := false,
    sandboxCreateFails := false, cancelledPreSpawn := false,
    updateExecutingFails := false, cancelledAtExecutingCheck := false,
    gatherFails := false, cancelledAtGather := false,
    builderFails := false, cancelledAtBuilder := false,
    promptFails := false, cancelledAtPrompt := false,
    spawnFails := false, cancelledAtSpawn := false,
    waitFails := true, cancelledAtWait := true,
    dedupCreateFails := false,
    procCreateFails := false, cancelledAtProcCreate := false,
    processFails := false, cancelledAtProcess := false,
    agentSuccess := false, procCompleted := false, gatesPassed := false }

/-! ## Theorems -/

/-- C2: releaseIssueWithError counts trailing failed attempts in the
execution history (unknown-success attempts skipped, counting stops at
the first success); at three or more it releases the execution state,
marks the issue blocked with a comment summarising the last error, and
never reopens; below three it issues the single atomic
release-and-reopen.  In particular, after three consecutive recorded
failures the next release blocks the issue. -/
theorem releaseIssueWithError_blocks_after_three_failures
    (history : List ExecutionAttempt) (instanceID errMsg : String) :
    consecutiveFailures history = trailingFailures history ∧
    (3 ≤ trailingFailures history →
      releaseIssueWithError false history instanceID errMsg =
        [ReleaseOp.releaseIssue,
         ReleaseOp.updateIssueStatus Status.blocked,
         ReleaseOp.addComment "executor"
           (s!"Blocked after {trailingFailures history} consecutive execution failures. Last error: "
             ++ errMsg)] ∧
      (∀ a c, ReleaseOp.releaseIssueAndReopen a c ∉
        releaseIssueWithError false history instanceID errMsg) ∧
      ReleaseOp.updateIssueStatus Status.open_ ∉
        releaseIssueWithError false history instanceID errMsg) ∧
    (trailingFailures history < 3 →
      releaseIssueWithError false history instanceID errMsg =
        [ReleaseOp.releaseIssueAndReopen instanceID errMsg]) := by
  have heq := consecutiveFailures_eq_trailingFailures history
  refine ⟨heq, ?_, ?_⟩
  · intro h
    refine ⟨?_, ?_, ?_⟩
    · simp [releaseIssueWithError, maxConsecutiveFailures, heq, h]
    · intro a c
      simp [releaseIssueWithError, maxConsecutiveFailures, heq, h]
    · simp [releaseIssueWithError, maxConsecutiveFailures, heq, h]
  · intro h
    simp [releaseIssueWithError, maxConsecutiveFailures, heq, Nat.not_le.mpr h]

/-- Witness for C2: three recorded failures with an unknown-success
attempt interleaved block the issue. -/
theorem releaseIssueWithError_blocks_witness :
    releaseIssueWithError false
        [⟨some false⟩, ⟨some false⟩, ⟨none⟩, ⟨some false⟩] "exec-1" "boom" =
      [ReleaseOp.releaseIssue,
       ReleaseOp.updateIssueStatus Status.blocked,
       ReleaseOp.addComment "executor"
         (s!"Blocked after {trailingFailures [⟨some false⟩, ⟨some false⟩, ⟨none⟩, ⟨some false⟩]} consecutive execution failures. Last error: "
           ++ "boom")] :=
  ((releaseIssueWithError_blocks_after_three_failures
      [⟨some false⟩, ⟨some false⟩, ⟨none⟩, ⟨some false⟩] "exec-1" "boom").2.1
    (by decide)).1

/-- C4: when a ready issue exists but the atomic claim fails (the race
was lost to another executor), processNextIssue returns nil without
executing the issue, and the event loop tick surfaces no error. -/
theorem processNextIssue_claim_race_not_error (env : PollEnv)
    (hready : env.readyErr = false) (hwork : env.readyIssues ≠ [])
    (hclaim : env.claimErr = true) :
    processNextIssue env = { isErr := false, executed := false } ∧
    eventLoopTickSurfacesError env = false := by
  cases h : env.readyIssues with
  | nil => exact absurd h hwork
  | cons a l =>
    refine ⟨?_, ?_⟩ <;>
      simp [processNextIssue, eventLoopTickSurfacesError, hready, h, hclaim]

/-- Witness for C4: one ready issue, claim race lost. -/
theorem processNextIssue_claim_race_witness :
    processNextIssue { readyErr := false, readyIssues := ["vc-1"], claimErr := true } =
      { isErr := false, executed := false } :=
  (processNextIssue_claim_race_not_error
    { readyErr := false, readyIssues := ["vc-1"], claimErr := true }
    (by decide) (by decide) (by decide)).1

/-- Helper: the resolved keep count is never zero. -/
theorem resolveConfig_keep_ne_zero (cfg : NewConfig) :
    (resolveConfig cfg).instanceCleanupKeep ≠ 0 := by
  by_cases h : cfg.instanceCleanupKeep = 0 <;> simp [resolveConfig, h]

/-- C9: New treats InstanceCleanupKeep equal to zero as unset and
substitutes the default 10, passes any non-zero value through, and so
the keep count handed to DeleteOldStoppedInstances in the Stop tail is
never zero. -/
theorem new_instanceCleanupKeep_zero_defaults_to_ten :
    (∀ cfg : NewConfig, cfg.instanceCleanupKeep = 0 →
      (resolveConfig cfg).instanceCleanupKeep = 10) ∧
    (∀ cfg : NewConfig, cfg.instanceCleanupKeep ≠ 0 →
      (resolveConfig cfg).instanceCleanupKeep = cfg.instanceCleanupKeep) ∧
    (∀ (cfg : NewConfig) (o : Nat) (k : Int),
      StopStoreOp.deleteOldStoppedInstances o k ∈ stopFinishOps (resolveConfig cfg) →
      k ≠ 0) := by
  refine ⟨?_, ?_, ?_⟩
  · intro cfg h
    simp [resolveConfig, h]
  · intro cfg h
    simp [resolveConfig, h]
  · intro cfg o k hmem
    have hk : k = (resolveConfig cfg).instanceCleanupKeep := by
      have h := hmem
      simp [stopFinishOps] at h
      exact h.2
    rw [hk]
    exact resolveConfig_keep_ne_zero cfg

/-- Witness for C9: a config with keep count zero resolves to 10. -/
theorem new_instanceCleanupKeep_witness :
    (resolveConfig
      { workingDir := "", sandboxRoot := "", parentRepo := "",
        cleanupInterval := 0, staleThreshold := 0, instanceCleanupAge := 0,
        instanceCleanupKeep := 0 }).instanceCleanupKeep = 10 :=
  new_instanceCleanupKeep_zero_defaults_to_ten.1
    { workingDir := "", sandboxRoot := "", parentRepo := "",
      cleanupInterval := 0, staleThreshold := 0, instanceCleanupAge := 0,
      instanceCleanupKeep := 0 } (by decide)

/-- C10: calling Start on a running executor returns an error with no
store write and the flag unchanged; and a RegisterInstance failure
makes Start return the error with the running flag reset to false,
having issued no other action. -/
theorem start_failure_atomicity (cfg : StartConfig) (env : StartEnv) :
    start cfg true env =
      { trace := [], running := true, err := some StartErr.alreadyRunning } ∧
    (env.registerErr = true →
      start cfg false env =
        { trace := [StartOp.registerInstance], running := false,
          err := some StartErr.registerFailed }) := by
  refine ⟨?_, ?_⟩
  · simp [start]
  · intro h
    simp [start, h]

/-- Witness for C10: a failing registration at a concrete config. -/
theorem start_failure_atomicity_witness :
    start
      { staleThresholdSecs := 300, enableSandboxes := false, keepBranches := false,
        watchdogEnabled := false, hasAnalyzer := false, hasIntervention := false }
      false
      { registerErr := true, cleanupStaleErr := false, cleanedCount := 0,
        branchCleanupErr := false } =
      { trace := [StartOp.registerInstance], running := false,
        err := some StartErr.registerFailed } :=
  (start_failure_atomicity _ _).2 (by decide)

/-- C7: after a successful registration, Start synchronously runs
CleanupStaleInstances with the stale threshold, immediately after the
register write and before any loop is launched; and whatever the
outcome of that reclamation call, Start succeeds. -/
theorem start_runs_stale_cleanup_before_loops (cfg : StartConfig) (env : StartEnv)
    (h : env.registerErr = false) :
    (start cfg false env).err = none ∧
    (start cfg false env).trace.take 2 =
      [StartOp.registerInstance,
       StartOp.cleanupStaleInstances cfg.staleThresholdSecs] ∧
    (∀ (n : Nat) (op : StartOp), (start cfg false env).trace.get? n = some op →
      op.isLoopStart = true → 2 ≤ n) := by
  refine ⟨by simp [start, h], by simp [start, h], ?_⟩
  intro n op hget hloop
  by_contra hlt
  push_neg at hlt
  interval_cases n <;>
    simp [start, h] at hget <;>
      (rw [← hget] at hloop; simp [StartOp.isLoopStart] at hloop)

/-- Witness for C7: a failing reclamation call at startup does not fail
Start, and the reclamation is the second action issued. -/
theorem start_stale_cleanup_witness :
    (start
      { staleThresholdSecs := 300, enableSandboxes := true, keepBranches := false,
        watchdogEnabled := true, hasAnalyzer := true, hasIntervention := true }
      false
      { registerErr := false, cleanupStaleErr := true, cleanedCount := 0,
        branchCleanupErr := false }).err = none ∧
    (start
      { staleThresholdSecs := 300, enableSandboxes := true, keepBranches := false,
        watchdogEnabled := true, hasAnalyzer := true, hasIntervention := true }
      false
      { registerErr := false, cleanupStaleErr := true, cleanedCount := 0,
        branchCleanupErr := false }).trace.take 2 =
      [StartOp.registerInstance, StartOp.cleanupStaleInstances 300] :=
  ⟨(start_runs_stale_cleanup_before_loops _ _ (by decide)).1,
   (start_runs_stale_cleanup_before_loops _ _ (by decide)).2.1⟩

/-- C8 counterexample: the event-cleanup summary event built by
logCleanupEvent carries the sentinel IssueID SYSTEM, not an empty one,
so against a store with no issues rows its insert violates the
issue_id foreign key: it is not storable without a pre-existing
pseudo-issue row. -/
theorem cleanup_summary_event_requires_system_issue :
    (cleanupSummaryEvent "exec-1" 5 12 true "").issueID = "SYSTEM" ∧
    (cleanupSummaryEvent "exec-1" 5 12 true "").issueID ≠ "" ∧
    issueFKSatisfied []
      (storeAgentEventRow (cleanupSummaryEvent "exec-1" 5 12 true "")) = false := by
  refine ⟨rfl, by decide, by decide⟩

/-- C8 as amended: StoreAgentEvent converts an empty IssueID (and empty
ExecutorID and AgentID) to NULL, so an event with an empty IssueID
never violates the issues foreign key; the event-cleanup summary
event, however, uses the sentinel IssueID SYSTEM and satisfies the
foreign key exactly when a SYSTEM issues row exists. -/
theorem storeAgentEvent_null_fk (e : AgentEvent) (issues : List String)
    (instanceID errorMsg : String) (total ms : Nat) (success : Bool) :
    (e.issueID = "" → (storeAgentEventRow e).issue_id = none) ∧
    (e.executorID = "" → (storeAgentEventRow e).executor_id = none) ∧
    (e.agentID = "" → (storeAgentEventRow e).agent_id = none) ∧
    (e.issueID = "" → issueFKSatisfied issues (storeAgentEventRow e) = true) ∧
    (cleanupSummaryEvent instanceID total ms success errorMsg).issueID = "SYSTEM" ∧
    issueFKSatisfied issues
        (storeAgentEventRow (cleanupSummaryEvent instanceID total ms success errorMsg)) =
      issues.contains "SYSTEM" := by
  refine ⟨?_, ?_, ?_, ?_, rfl, ?_⟩
  · intro h; simp [storeAgentEventRow, h]
  · intro h; simp [storeAgentEventRow, h]
  · intro h; simp [storeAgentEventRow, h]
  · intro h; simp [issueFKSatisfied, storeAgentEventRow, h]
  · simp [issueFKSatisfied, storeAgentEventRow, cleanupSummaryEvent]

/-- Witness for C8: a system-wide event with an empty IssueID stores
NULL and passes the foreign key against an empty issues table. -/
theorem storeAgentEvent_null_fk_witness :
    (storeAgentEventRow
      { issueID := "", executorID := "", agentID := "", typ := "error",
        severity := "info", message := "m", sourceLine := 0 }).issue_id = none ∧
    issueFKSatisfied []
      (storeAgentEventRow
        { issueID := "", executorID := "", agentID := "", typ := "error",
          severity := "info", message := "m", sourceLine := 0 }) = true :=
  ⟨(storeAgentEvent_null_fk
      { issueID := "", executorID := "", agentID := "", typ := "error",
        severity := "info", message := "m", sourceLine := 0 }
      [] "x" "" 0 0 true).1 rfl,
   (storeAgentEvent_null_fk
      { issueID := "", executorID := "", agentID := "", typ := "error",
        severity := "info", message := "m", sourceLine := 0 }
      [] "x" "" 0 0 true).2.2.2.1 rfl⟩

/-- C6: a fully successful cleanup cycle issues, in order, age-based
deletion with both retention windows, per-issue-limit deletion, and
global-limit deletion at the 95 percent trigger threshold, all with
the configured batch size; the VACUUM request is issued exactly when
CleanupVacuum is enabled and something was deleted; the cycle reports
success; and every cycle, failing or not, emits a summary event with
the deletion counts, remaining count, elapsed milliseconds, vacuum
flag and success flag. -/
theorem runEventCleanup_order_vacuum_summary (cfg : EventRetentionConfig)
    (env : CleanupEnv) (h1 : env.ageErr = false) (h2 : env.perIssueErr = false)
    (h3 : env.globalErr = false) :
    (runEventCleanup cfg env).1 =
      [CleanupOp.cleanupEventsByAge cfg.retentionDays cfg.retentionCriticalDays
         cfg.cleanupBatchSize,
       CleanupOp.cleanupEventsByIssueLimit cfg.perIssueLimitEvents
         cfg.cleanupBatchSize,
       CleanupOp.cleanupEventsByGlobalLimit (triggerThreshold cfg.globalLimitEvents)
         cfg.cleanupBatchSize] ++
      (if cfg.cleanupVacuum &&
          (env.ageDeleted + env.perIssueDeleted + env.globalDeleted) > 0 then
        [CleanupOp.vacuumDatabase] else []) ++
      [CleanupOp.getEventCounts,
       CleanupOp.logCleanup
         (env.ageDeleted + env.perIssueDeleted + env.globalDeleted)
         env.ageDeleted env.perIssueDeleted env.globalDeleted env.elapsedMs
         (cfg.cleanupVacuum &&
           (env.ageDeleted + env.perIssueDeleted + env.globalDeleted) > 0 &&
           !env.vacuumErr)
         (if env.countsErr then 0 else env.totalEvents) true ""] ∧
    (CleanupOp.vacuumDatabase ∈ (runEventCleanup cfg env).1 ↔
      cfg.cleanupVacuum = true ∧
        0 < env.ageDeleted + env.perIssueDeleted + env.globalDeleted) ∧
    (runEventCleanup cfg env).2 = false ∧
    (∀ (cfg2 : EventRetentionConfig) (env2 : CleanupEnv),
      ((runEventCleanup cfg2 env2).1.any CleanupOp.isLogCleanup) = true) := by
  have htr : (runEventCleanup cfg env).1 =
      [CleanupOp.cleanupEventsByAge cfg.retentionDays cfg.retentionCriticalDays
         cfg.cleanupBatchSize,
       CleanupOp.cleanupEventsByIssueLimit cfg.perIssueLimitEvents
         cfg.cleanupBatchSize,
       CleanupOp.cleanupEventsByGlobalLimit (triggerThreshold cfg.globalLimitEvents)
         cfg.cleanupBatchSize] ++
      (if cfg.cleanupVacuum &&
          (env.ageDeleted + env.perIssueDeleted + env.globalDeleted) > 0 then
        [CleanupOp.vacuumDatabase] else []) ++
      [CleanupOp.getEventCounts,
       CleanupOp.logCleanup
         (env.ageDeleted + env.perIssueDeleted + env.globalDeleted)
         env.ageDeleted env.perIssueDeleted env.globalDeleted env.elapsedMs
         (cfg.cleanupVacuum &&
           (env.ageDeleted + env.perIssueDeleted + env.globalDeleted) > 0 &&
           !env.vacuumErr)
         (if env.countsErr then 0 else env.totalEvents) true ""] := by
    simp [runEventCleanup, h1, h2, h3]
  refine ⟨htr, ?_, ?_, ?_⟩
  · rw [htr]
    by_cases hv : cfg.cleanupVacuum = true ∧
        0 < env.ageDeleted + env.perIssueDeleted + env.globalDeleted
    · simp [hv.1, hv.2]
    · rcases Decidable.not_and_iff_or_not.mp hv with hc | hc
      · have hcf : cfg.cleanupVacuum = false := by
          cases hcv : cfg.cleanupVacuum
          · rfl
          · exact absurd hcv hc
        simp [hcf]
      · have hz : env.ageDeleted + env.perIssueDeleted + env.globalDeleted = 0 :=
          Nat.le_zero.mp (Nat.not_lt.mp hc)
        simp [hz]
  · simp [runEventCleanup, h1, h2, h3]
  · intro cfg2 env2
    unfold runEventCleanup
    split <;> [skip; split] <;> [skip; skip; split] <;>
      simp [CleanupOp.isLogCleanup]

/-- Witness for C6: a concrete successful cycle with vacuum enabled and
five deleted events issues the VACUUM request and reports success. -/
theorem runEventCleanup_witness :
    CleanupOp.vacuumDatabase ∈
      (runEventCleanup
        { retentionDays := 30, retentionCriticalDays := 180,
          perIssueLimitEvents := 1000, globalLimitEvents := 50000,
          cleanupBatchSize := 1000, cleanupVacuum := true }
        { ageErr := false, ageDeleted := 3, perIssueErr := false,
          perIssueDeleted := 2, globalErr := false, globalDeleted := 0,
          vacuumErr := false, countsErr := false, totalEvents := 77,
          elapsedMs := 12 }).1 ∧
    (runEventCleanup
        { retentionDays := 30, retentionCriticalDays := 180,
          perIssueLimitEvents := 1000, globalLimitEvents := 50000,
          cleanupBatchSize := 1000, cleanupVacuum := true }
        { ageErr := false, ageDeleted := 3, perIssueErr := false,
          perIssueDeleted := 2, globalErr := false, globalDeleted := 0,
          vacuumErr := false, countsErr := false, totalEvents := 77,
          elapsedMs := 12 }).2 = false :=
  ⟨((runEventCleanup_order_vacuum_summary _ _ (by decide) (by decide)
      (by decide)).2.1).mpr ⟨rfl, by decide⟩,
   (runEventCleanup_order_vacuum_summary _ _ (by decide) (by decide)
      (by decide)).2.2.1⟩

/-- Helper: stateUpdates distributes over concatenation. -/
theorem stateUpdates_append (l1 l2 : List Action) :
    stateUpdates (l1 ++ l2) = stateUpdates l1 ++ stateUpdates l2 := by
  simp [stateUpdates]

/-- Helper: stateUpdates of an empty trace. -/
theorem stateUpdates_nil : stateUpdates [] = [] := rfl

/-- Helper: one-step computation of stateUpdates. -/
theorem stateUpdates_cons (a : Action) (l : List Action) :
    stateUpdates (a :: l) =
      (match a with
        | Action.updateState s => [s]
        | _ => []) ++ stateUpdates l := by
  cases a <;> rfl

/-- Helper: the deferred sandbox cleanup makes no state update. -/
theorem stateUpdates_deferOps (b : Bool) : stateUpdates (deferOps b) = [] := by
  cases b <;> rfl

/-- Helper: the results phase makes no state update beyond those in the
deferred actions. -/
theorem stateUpdates_execResultsPhase (env : ExecEnv) (d : List Action) :
    stateUpdates (execResultsPhase env d).1 = stateUpdates d := by
  unfold execResultsPhase
  split_ifs <;>
    simp [stateUpdates_append, stateUpdates_cons, stateUpdates_nil]

/-- Helper: the agent phase makes no state update beyond those in the
deferred actions. -/
theorem stateUpdates_execAgentPhase (env : ExecEnv) (d : List Action) :
    stateUpdates (execAgentPhase env d).1 = stateUpdates d := by
  unfold execAgentPhase
  split_ifs <;>
    simp [stateUpdates_append, stateUpdates_cons, stateUpdates_nil,
      stateUpdates_execResultsPhase]

/-- Helper: the assessment phase makes no state update. -/
theorem stateUpdates_execAssessPhase (env : ExecEnv) :
    stateUpdates (execAssessPhase env).1 = [] := by
  unfold execAssessPhase
  split_ifs <;>
    simp [stateUpdates_append, stateUpdates_cons, stateUpdates_nil]

/-- Helper: the sandbox phase makes no state update. -/
theorem stateUpdates_execSandboxPhase (env : ExecEnv) :
    stateUpdates (execSandboxPhase env).1 = [] := by
  unfold execSandboxPhase
  split_ifs <;>
    simp [stateUpdates_append, stateUpdates_cons, stateUpdates_nil]

/-- Helper: from the pre-spawn check onward, either no state update
happens or exactly the transition to executing. -/
theorem stateUpdates_execFromPreSpawn (env : ExecEnv) (b : Bool) :
    stateUpdates (execFromPreSpawn env b).1 = [] ∨
    stateUpdates (execFromPreSpawn env b).1 = [ExecutionState.executing] := by
  unfold execFromPreSpawn
  split_ifs
  · left
    simp [stateUpdates_append, stateUpdates_cons, stateUpdates_nil,
      stateUpdates_deferOps]
  · right
    simp [stateUpdates_append, stateUpdates_cons, stateUpdates_nil,
      stateUpdates_deferOps]
  · right
    have h := stateUpdates_execAgentPhase env (deferOps b)
    rw [stateUpdates_deferOps] at h
    simp [stateUpdates_append, stateUpdates_cons, stateUpdates_nil, h]

/-- C5: for every run of executeIssue, the sequence of
UpdateExecutionState calls it issues is a prefix of
[assessing, executing]; the transition to assessing is issued
unconditionally (also when AI supervision is disabled) and always
before any transition to executing. -/
theorem executeIssue_assessing_before_executing (env : ExecEnv) :
    stateUpdates (executeIssue env).1 = [ExecutionState.assessing] ∨
    stateUpdates (executeIssue env).1 =
      [ExecutionState.assessing, ExecutionState.executing] := by
  unfold executeIssue
  split_ifs with h
  · left
    simp [stateUpdates_append, stateUpdates_cons, stateUpdates_nil]
  · rcases ha : execAssessPhase env with ⟨ta, ro⟩
    have hta : stateUpdates ta = [] := by
      have h2 := stateUpdates_execAssessPhase env
      rw [ha] at h2
      exact h2
    cases ro with
    | some r =>
      left
      simp [ha, stateUpdates_append, stateUpdates_cons, stateUpdates_nil, hta]
    | none =>
      have hsb := stateUpdates_execSandboxPhase env
      rcases stateUpdates_execFromPreSpawn env (execSandboxPhase env).2 with hf | hf
      · left
        simp [ha, stateUpdates_append, stateUpdates_cons, stateUpdates_nil,
          hta, hsb, hf]
      · right
        simp [ha, stateUpdates_append, stateUpdates_cons, stateUpdates_nil,
          hta, hsb, hf]

/-- Helper: the deferred sandbox cleanup contains no release call. -/
theorem release_not_mem_deferOps (sb : Bool) (s : ReleaseSite) (c : Ctx) (b : Bool) :
    Action.release s c b ∉ deferOps sb := by
  cases sb <;> simp [deferOps]

/-- Helper: every release issued by the results phase goes to an
unguarded site with the ambient context. -/
theorem release_execResultsPhase (env : ExecEnv) (d : List Action)
    (hd : ∀ s c b, Action.release s c b ∉ d)
    (s : ReleaseSite) (c : Ctx) (b : Bool)
    (h : Action.release s c b ∈ (execResultsPhase env d).1) :
    ReleaseSite.isGuarded s = false ∧ c = Ctx.ambient := by
  unfold execResultsPhase at h
  split_ifs at h <;> simp [hd s c b] at h <;>
    obtain ⟨rfl, rfl, rfl⟩ := h <;> exact ⟨rfl, rfl⟩

/-- Helper: every release issued by the agent phase goes to an
unguarded site with the ambient context. -/
theorem release_execAgentPhase (env : ExecEnv) (d : List Action)
    (hd : ∀ s c b, Action.release s c b ∉ d)
    (s : ReleaseSite) (c : Ctx) (b : Bool)
    (h : Action.release s c b ∈ (execAgentPhase env d).1) :
    ReleaseSite.isGuarded s = false ∧ c = Ctx.ambient := by
  unfold execAgentPhase at h
  split_ifs at h <;>
    first
    | (simp [hd s c b] at h; obtain ⟨rfl, rfl, rfl⟩ := h; exact ⟨rfl, rfl⟩)
    | (simp at h
       exact release_execResultsPhase env d hd s c b h)

/-- Helper: every release issued by the assessment phase goes to the
assessment site with the detached context and the ambient context
cancelled. -/
theorem release_execAssessPhase (env : ExecEnv)
    (s : ReleaseSite) (c : Ctx) (b : Bool)
    (h : Action.release s c b ∈ (execAssessPhase env).1) :
    s = ReleaseSite.assessment ∧ c = Ctx.detached ∧ b = true := by
  unfold execAssessPhase at h
  split_ifs at h <;> simp at h
  exact h

/-- Helper: the sandbox phase issues no release. -/
theorem release_not_mem_execSandboxPhase (env : ExecEnv)
    (s : ReleaseSite) (c : Ctx) (b : Bool) :
    Action.release s c b ∉ (execSandboxPhase env).1 := by
  unfold execSandboxPhase
  split_ifs <;> simp

/-- Helper: from the pre-spawn check onward, releases at guarded sites
use the detached context with the ambient context cancelled, and all
other releases use the ambient context. -/
theorem release_execFromPreSpawn (env : ExecEnv) (sb : Bool)
    (s : ReleaseSite) (c : Ctx) (b : Bool)
    (h : Action.release s c b ∈ (execFromPreSpawn env sb).1) :
    (ReleaseSite.isGuarded s = true → c = Ctx.detached ∧ b = true) ∧
    (ReleaseSite.isGuarded s = false → c = Ctx.ambient) := by
  unfold execFromPreSpawn at h
  split_ifs at h
  · simp [release_not_mem_deferOps sb s c b] at h
    obtain ⟨rfl, rfl, rfl⟩ := h
    exact ⟨fun _ => ⟨rfl, rfl⟩, by simp [ReleaseSite.isGuarded]⟩
  · simp [release_not_mem_deferOps sb s c b] at h
    obtain ⟨rfl, rfl, rfl⟩ := h
    exact ⟨fun _ => ⟨rfl, rfl⟩, by simp [ReleaseSite.isGuarded]⟩
  · simp at h
    have h2 := release_execAgentPhase env (deferOps sb)
      (release_not_mem_deferOps sb) s c b h
    exact ⟨by simp [h2.1], fun _ => h2.2⟩

/-- C1 as amended: inside executeIssue, only the four explicitly
guarded cancellation checkpoints (the two UpdateExecutionState
failures, the assessment failure and the pre-spawn check) switch the
claim-release to a detached background context; every release from the
later failure paths (context gathering, prompt builder construction,
prompt building, agent spawn, agent wait, results-processor
construction, results processing) passes the ambient context to
releaseIssueWithError, whatever its cancellation status. -/
theorem releaseWrites_detached_only_at_guarded_sites (env : ExecEnv)
    (s : ReleaseSite) (c : Ctx) (b : Bool)
    (h : Action.release s c b ∈ (executeIssue env).1) :
    (ReleaseSite.isGuarded s = true → c = Ctx.detached ∧ b = true) ∧
    (ReleaseSite.isGuarded s = false → c = Ctx.ambient) := by
  unfold executeIssue at h
  split_ifs at h
  · simp at h
    obtain ⟨rfl, rfl, rfl⟩ := h
    exact ⟨fun _ => ⟨rfl, rfl⟩, by simp [ReleaseSite.isGuarded]⟩
  · rcases ha : execAssessPhase env with ⟨ta, ro⟩
    rw [ha] at h
    cases ro with
    | some r =>
      simp at h
      have h2 : Action.release s c b ∈ (execAssessPhase env).1 := by
        rw [ha]
        simpa using h
      obtain ⟨rfl, rfl, rfl⟩ := release_execAssessPhase env s c b h2
      exact ⟨fun _ => ⟨rfl, rfl⟩, by simp [ReleaseSite.isGuarded]⟩
    | none =>
      simp [release_not_mem_execSandboxPhase env s c b] at h
      rcases h with h | h
      · have h2 : Action.release s c b ∈ (execAssessPhase env).1 := by
          rw [ha]
          simpa using h
        obtain ⟨rfl, rfl, rfl⟩ := release_execAssessPhase env s c b h2
        exact ⟨fun _ => ⟨rfl, rfl⟩, by simp [ReleaseSite.isGuarded]⟩
      · exact release_execFromPreSpawn env (execSandboxPhase env).2 s c b h

/-- C1 counterexample: in the run envWaitCancelled, where shutdown
cancels the ambient context while the agent is running, the failing
agent wait releases the claim with the ambient, already cancelled,
context; hence it is not the case that every release performed while
the ambient context is cancelled uses a detached token. -/
theorem releaseWrites_detached_counterexample :
    Action.release ReleaseSite.agentWait Ctx.ambient true ∈
      (executeIssue envWaitCancelled).1 ∧
    ¬ (∀ (env : ExecEnv) (s : ReleaseSite) (c : Ctx),
        Action.release s c true ∈ (executeIssue env).1 → c = Ctx.detached) := by
  constructor
  · decide
  · intro hall
    have h := hall envWaitCancelled ReleaseSite.agentWait Ctx.ambient (by decide)
    exact absurd h (by decide)

/-- Witness for C1 as amended: at the guarded pre-spawn checkpoint with
the ambient context cancelled, the release uses the detached
context. -/
theorem releaseWrites_detached_witness :
    Action.release ReleaseSite.preSpawn Ctx.detached true ∈
      (executeIssue { envWaitCancelled with cancelledPreSpawn := true }).1 ∧
    (Ctx.detached = Ctx.detached ∧ (true : Bool) = true) :=
  ⟨by decide,
   (releaseWrites_detached_only_at_guarded_sites
      { envWaitCancelled with cancelledPreSpawn := true }
      ReleaseSite.preSpawn Ctx.detached true (by decide)).1 (by decide)⟩

/-- Helper: processing a signal never unsets a done flag. -/
theorem applySignal_all_mono (s : WaitFlags) (sig : StopSignal)
    (h : s.all = true) : (applySignal s sig).all = true := by
  cases s
  cases sig <;> simp_all [applySignal, WaitFlags.all]

/-- Helper: processing any signal sequence never unsets the done
flags. -/
theorem foldl_applySignal_all (l : List StopSignal) :
    ∀ s : WaitFlags, s.all = true → (l.foldl applySignal s).all = true := by
  induction l with
  | nil => exact fun s h => h
  | cons sig rest ih => exact fun s h => ih _ (applySignal_all_mono s sig h)

/-- Helper: if every still-missing done-signal occurs in the incoming
sequence and the caller context does not fire, the wait loop
completes. -/
theorem stopWait_completed_of_mem (l : List StopSignal) :
    ∀ s : WaitFlags, StopSignal.ctxDone ∉ l →
    (s.eventDone = true ∨ StopSignal.eventDone ∈ l) →
    (s.watchdogDone = true ∨ StopSignal.watchdogDone ∈ l) →
    (s.cleanupDone = true ∨ StopSignal.cleanupDone ∈ l) →
    (s.eventCleanupDone = true ∨ StopSignal.eventCleanupDone ∈ l) →
    stopWait s l = StopOutcome.completed := by
  induction l with
  | nil =>
    intro s _ he hw hc hec
    simp at he hw hc hec
    simp [stopWait, WaitFlags.all, he, hw, hc, hec]
  | cons sig rest ih =>
    intro s hctx he hw hc hec
    have hctx2 : StopSignal.ctxDone ∉ rest :=
      fun hm => hctx (List.mem_cons_of_mem _ hm)
    by_cases hall : s.all = true
    · rw [stopWait, if_pos hall]
    · rw [stopWait, if_neg hall]
      cases sig with
      | ctxDone => exact absurd (List.mem_cons_self _ _) hctx
      | eventDone =>
        rw [if_neg (by decide)]
        refine ih _ hctx2 ?_ ?_ ?_ ?_
        · exact Or.inl (by cases s; simp [applySignal])
        · rcases hw with h | h
          · exact Or.inl (by cases s; simp_all [applySignal])
          · exact Or.inr (List.mem_of_ne_of_mem (by decide) h)
        · rcases hc with h | h
          · exact Or.inl (by cases s; simp_all [applySignal])
          · exact Or.inr (List.mem_of_ne_of_mem (by decide) h)
        · rcases hec with h | h
          · exact Or.inl (by cases s; simp_all [applySignal])
          · exact Or.inr (List.mem_of_ne_of_mem (by decide) h)
      | watchdogDone =>
        rw [if_neg (by decide)]
        refine ih _ hctx2 ?_ ?_ ?_ ?_
        · rcases he with h | h
          · exact Or.inl (by cases s; simp_all [applySignal])
          · exact Or.inr (List.mem_of_ne_of_mem (by decide) h)
        · exact Or.inl (by cases s; simp [applySignal])
        · rcases hc with h | h
          · exact Or.inl (by cases s; simp_all [applySignal])
          · exact Or.inr (List.mem_of_ne_of_mem (by decide) h)
        · rcases hec with h | h
          · exact Or.inl (by cases s; simp_all [applySignal])
          · exact Or.inr (List.mem_of_ne_of_mem (by decide) h)
      | cleanupDone =>
        rw [if_neg (by decide)]
        refine ih _ hctx2 ?_ ?_ ?_ ?_
        · rcases he with h | h
          · exact Or.inl (by cases s; simp_all [applySignal])
          · exact Or.inr (List.mem_of_ne_of_mem (by decide) h)
        · rcases hw with h | h
          · exact Or.inl (by cases s; simp_all [applySignal])
          · exact Or.inr (List.mem_of_ne_of_mem (by decide) h)
        · exact Or.inl (by cases s; simp [applySignal])
        · rcases hec with h | h
          · exact Or.inl (by cases s; simp_all [applySignal])
          · exact Or.inr (List.mem_of_ne_of_mem (by decide) h)
      | eventCleanupDone =>
        rw [if_neg (by decide)]
        refine ih _ hctx2 ?_ ?_ ?_ ?_
        · rcases he with h | h
          · exact Or.inl (by cases s; simp_all [applySignal])
          · exact Or.inr (List.mem_of_ne_of_mem (by decide) h)
        · rcases hw with h | h
          · exact Or.inl (by cases s; simp_all [applySignal])
          · exact Or.inr (List.mem_of_ne_of_mem (by decide) h)
        · rcases hc with h | h
          · exact Or.inl (by cases s; simp_all [applySignal])
          · exact Or.inr (List.mem_of_ne_of_mem (by decide) h)
        · exact Or.inl (by cases s; simp [applySignal])

/-- Helper: if the caller context fires while the loop is still
missing a done-signal, the wait loop returns the context error,
independently of everything that would arrive afterwards. -/
theorem stopWait_ctxErr_of_incomplete (pre : List StopSignal) :
    ∀ (s : WaitFlags) (post : List StopSignal), StopSignal.ctxDone ∉ pre →
    (pre.foldl applySignal s).all = false →
    stopWait s (pre ++ StopSignal.ctxDone :: post) = StopOutcome.ctxErr := by
  induction pre with
  | nil =>
    intro s post _ hall
    simp only [List.nil_append, List.foldl_nil] at hall ⊢
    rw [stopWait, if_neg (by simp [hall]), if_pos rfl]
  | cons sig rest ih =>
    intro s post hctx hall
    have hsall : s.all = false := by
      by_contra hs
      have h1 : s.all = true := by
        cases hval : s.all
        · exact absurd hval hs
        · rfl
      have h2 := foldl_applySignal_all (sig :: rest) s h1
      rw [h2] at hall
      exact absurd hall (by decide)
    rw [List.cons_append, stopWait, if_neg (by simp [hsall])]
    cases sig with
    | ctxDone => exact absurd (List.mem_cons_self _ _) hctx
    | eventDone =>
      rw [if_neg (by decide)]
      exact ih _ post (fun hm => hctx (List.mem_cons_of_mem _ hm))
        (by simpa [List.foldl_cons] using hall)
    | watchdogDone =>
      rw [if_neg (by decide)]
      exact ih _ post (fun hm => hctx (List.mem_cons_of_mem _ hm))
        (by simpa [List.foldl_cons] using hall)
    | cleanupDone =>
      rw [if_neg (by decide)]
      exact ih _ post (fun hm => hctx (List.mem_cons_of_mem _ hm))
        (by simpa [List.foldl_cons] using hall)
    | eventCleanupDone =>
      rw [if_neg (by decide)]
      exact ih _ post (fun hm => hctx (List.mem_cons_of_mem _ hm))
        (by simpa [List.foldl_cons] using hall)

/-- Helper: completing the wait loop requires having observed every
done-signal whose flag was not already set. -/
theorem stopWait_completed_mem (l : List StopSignal) :
    ∀ s : WaitFlags, stopWait s l = StopOutcome.completed →
      (s.eventDone = false → StopSignal.eventDone ∈ l) ∧
      (s.watchdogDone = false → StopSignal.watchdogDone ∈ l) ∧
      (s.cleanupDone = false → StopSignal.cleanupDone ∈ l) ∧
      (s.eventCleanupDone = false → StopSignal.eventCleanupDone ∈ l) := by
  induction l with
  | nil =>
    intro s h
    rw [stopWait] at h
    by_cases hall : s.all = true
    · cases s
      simp [WaitFlags.all] at hall
      refine ⟨?_, ?_, ?_, ?_⟩ <;> intro hf <;> simp_all
    · rw [if_neg hall] at h
      exact absurd h (by decide)
  | cons sig rest ih =>
    intro s h
    rw [stopWait] at h
    by_cases hall : s.all = true
    · cases s
      simp [WaitFlags.all] at hall
      refine ⟨?_, ?_, ?_, ?_⟩ <;> intro hf <;> simp_all
    · rw [if_neg hall] at h
      cases sig with
      | ctxDone =>
        rw [if_pos rfl] at h
        exact absurd h (by decide)
      | eventDone =>
        rw [if_neg (by decide)] at h
        have ih2 := ih _ h
        refine ⟨fun _ => List.mem_cons_self _ _, ?_, ?_, ?_⟩
        · intro hf
          exact List.mem_cons_of_mem _
            (ih2.2.1 (by cases s; simp_all [applySignal]))
        · intro hf
          exact List.mem_cons_of_mem _
            (ih2.2.2.1 (by cases s; simp_all [applySignal]))
        · intro hf
          exact List.mem_cons_of_mem _
            (ih2.2.2.2 (by cases s; simp_all [applySignal]))
      | watchdogDone =>
        rw [if_neg (by decide)] at h
        have ih2 := ih _ h
        refine ⟨?_, fun _ => List.mem_cons_self _ _, ?_, ?_⟩
        · intro hf
          exact List.mem_cons_of_mem _
            (ih2.1 (by cases s; simp_all [applySignal]))
        · intro hf
          exact List.mem_cons_of_mem _
            (ih2.2.2.1 (by cases s; simp_all [applySignal]))
        · intro hf
          exact List.mem_cons_of_mem _
            (ih2.2.2.2 (by cases s; simp_all [applySignal]))
      | cleanupDone =>
        rw [if_neg (by decide)] at h
        have ih2 := ih _ h
        refine ⟨?_, ?_, fun _ => List.mem_cons_self _ _, ?_⟩
        · intro hf
          exact List.mem_cons_of_mem _
            (ih2.1 (by cases s; simp_all [applySignal]))
        · intro hf
          exact List.mem_cons_of_mem _
            (ih2.2.1 (by cases s; simp_all [applySignal]))
        · intro hf
          exact List.mem_cons_of_mem _
            (ih2.2.2.2 (by cases s; simp_all [applySignal]))
      | eventCleanupDone =>
        rw [if_neg (by decide)] at h
        have ih2 := ih _ h
        refine ⟨?_, ?_, ?_, fun _ => List.mem_cons_self _ _⟩
        · intro hf
          exact List.mem_cons_of_mem _
            (ih2.1 (by cases s; simp_all [applySignal]))
        · intro hf
          exact List.mem_cons_of_mem _
            (ih2.2.1 (by cases s; simp_all [applySignal]))
        · intro hf
          exact List.mem_cons_of_mem _
            (ih2.2.2.1 (by cases s; simp_all [applySignal]))

/-- C3: with the watchdog loop active, the wait loop of Stop completes
for every arrival order of the four done-signals (the wait is
concurrent, not serial); if the caller context fires while at least
one done-signal is still missing, Stop returns the context error at
that point, whatever signals would have arrived later; and completing
without the context error requires having observed all four
done-signals. -/
theorem stop_waits_concurrently_and_respects_deadline :
    (∀ l : List StopSignal,
      l.Perm [StopSignal.eventDone, StopSignal.watchdogDone,
        StopSignal.cleanupDone, StopSignal.eventCleanupDone] →
      stopWait (initWaitFlags true true) l = StopOutcome.completed) ∧
    (∀ pre post : List StopSignal, StopSignal.ctxDone ∉ pre →
      (pre.foldl applySignal (initWaitFlags true true)).all = false →
      stopWait (initWaitFlags true true) (pre ++ StopSignal.ctxDone :: post) =
        StopOutcome.ctxErr) ∧
    (∀ l : List StopSignal,
      stopWait (initWaitFlags true true) l = StopOutcome.completed →
      StopSignal.eventDone ∈ l ∧ StopSignal.watchdogDone ∈ l ∧
        StopSignal.cleanupDone ∈ l ∧ StopSignal.eventCleanupDone ∈ l) := by
  refine ⟨?_, ?_, ?_⟩
  · intro l hperm
    have hmem : ∀ sig : StopSignal,
        sig ∈ [StopSignal.eventDone, StopSignal.watchdogDone,
          StopSignal.cleanupDone, StopSignal.eventCleanupDone] → sig ∈ l :=
      fun sig hs => hperm.mem_iff.mpr hs
    refine stopWait_completed_of_mem l (initWaitFlags true true) ?_ ?_ ?_ ?_ ?_
    · intro hm
      have := hperm.mem_iff.mp hm
      simp at this
    · exact Or.inr (hmem _ (by decide))
    · exact Or.inr (hmem _ (by decide))
    · exact Or.inr (hmem _ (by decide))
    · exact Or.inr (hmem _ (by decide))
  · intro pre post hctx hall
    exact stopWait_ctxErr_of_incomplete pre (initWaitFlags true true) post hctx hall
  · intro l h
    have hm := stopWait_completed_mem l (initWaitFlags true true) h
    exact ⟨hm.1 rfl, hm.2.1 rfl, hm.2.2.1 rfl, hm.2.2.2 rfl⟩

/-- Witness for C3: a signal order delivering the four done-signals
completes, and a context firing before any done-signal returns the
context error. -/
theorem stop_waits_witness :
    stopWait (initWaitFlags true true)
      [StopSignal.eventCleanupDone, StopSignal.watchdogDone,
        StopSignal.eventDone, StopSignal.cleanupDone] = StopOutcome.completed ∧
    stopWait (initWaitFlags true true)
      ([] ++ StopSignal.ctxDone :: [StopSignal.eventDone]) = StopOutcome.ctxErr :=
  ⟨stop_waits_concurrently_and_respects_deadline.1 _ (by decide),
   stop_waits_concurrently_and_respects_deadline.2.1 [] [StopSignal.eventDone]
     (by simp) (by decide)⟩

end VC
